import Mathlib

/-!
Verification of the authentication subsystem of the bybit-mcp server
(`src/bybit_mcp/auth.py`, `src/bybit_mcp/config.py`, `src/bybit_mcp/server.py`).

The Python code is shallowly embedded: every mutating method of
`BybitOAuthProvider` becomes a pure function from the provider state (and the
explicit clock / fresh-randomness inputs) to the new state plus its result.
Python dicts become association lists, the `time` clock and
`secrets.token_urlsafe` become explicit parameters, and JWT strings become a
symbolic token type where `jwt.encode(payload, secret)` is an injective
constructor, which models HMAC unforgeability.
-/

/-- TTL constants from auth.py lines 29-32. -/
def _ACCESS_TOKEN_TTL : Nat := 3600

/-- Refresh-token TTL: 7 days (auth.py line 30). -/
def _REFRESH_TOKEN_TTL : Nat := 7 * 24 * 3600

/-- Authorization-code TTL: 10 minutes (auth.py line 31). -/
def _AUTH_CODE_TTL : Nat := 600

/-- PIN brute-force ceiling (`BybitOAuthProvider._MAX_PIN_ATTEMPTS`). -/
def _MAX_PIN_ATTEMPTS : Nat := 5

/-! ## Python dict as association list

A Python dict has at most one binding per key; `dictInsert`/`dictPop` below
maintain that by removing every binding of the key being written/popped, so
`lookup` after the operation agrees with dict semantics regardless of the
history of the list. -/

/-- `d.get(k)` / `d[k]` read on a Python dict. -/
def dictGet {α : Type} (d : List (String × α)) (k : String) : Option α :=
  match d with
  | [] => none
  | e :: es => if e.1 = k then some e.2 else dictGet es k

/-- `d[k] = v` on a Python dict. -/
def dictInsert {α : Type} (d : List (String × α)) (k : String) (v : α) :
    List (String × α) :=
  (k, v) :: d.filter (fun e => e.1 ≠ k)

/-- `d.pop(k, None)` on a Python dict (the removal effect; the popped value
is taken from a prior `dictGet` where the code uses it). -/
def dictPop {α : Type} (d : List (String × α)) (k : String) :
    List (String × α) :=
  d.filter (fun e => e.1 ≠ k)

/-! ## Symbolic JWT model

`jwt.encode(payload, secret, algorithm="HS256")` produces a string determined
by the payload and the signing secret; `jwt.decode` recovers the payload only
under the same secret (HMAC). We model the space of Python strings that may be
presented as bearer tokens as `TokenString`: either an arbitrary plain string
that is not a validly signed JWT, or a signed blob, with the encoder as an
injective constructor. -/

/-- The claims dict built by `BybitOAuthProvider._create_jwt` (auth.py 319-331). -/
structure JwtPayload where
  sub : String
  type : String
  scopes : List String
  iat : Nat
  exp : Nat
  iss : String
  aud : String
  jti : String
deriving DecidableEq, Repr

/-- A Python string in bearer-token position: `raw s` is a plain string that is
not a validly signed JWT; `blob payload secret` is `jwt.encode(payload, secret)`. -/
inductive TokenString where
  | raw (s : String)
  | blob (payload : JwtPayload) (secret : String)
deriving DecidableEq, Repr

/-- `mcp.shared.auth.OAuthClientInformationFull`, restricted to the fields this
repository reads (client_id) plus the `software_id` the spec's registration
gate talks about. -/
structure OAuthClientInformationFull where
  client_id : String
  redirect_uris : List String
  software_id : Option String
deriving DecidableEq, Repr

/-- `mcp.server.auth.provider.AuthorizationParams` as received from the mcp
framework. The real class declares no `_created_at` attribute; auth.py's
`cleanup_expired_consents` probes for one with `hasattr`, so the model carries
it as an `Option` where `none` means "attribute absent". -/
structure AuthorizationParams where
  state : Option String
  scopes : Option (List String)
  code_challenge : String
  redirect_uri : String
  redirect_uri_provided_explicitly : Bool
  resource : Option String
  _created_at : Option Nat
deriving DecidableEq, Repr

/-- AuthorizationParams as actually constructed by the mcp framework before it
calls `authorize`: the class has no `_created_at` attribute and nothing in
this repository ever sets one (`hasattr(params, "_created_at")` is false). -/
def mkFrameworkAuthorizationParams (state : Option String) (scopes : Option (List String))
    (code_challenge : String) (redirect_uri : String)
    (redirect_uri_provided_explicitly : Bool) (resource : Option String) :
    AuthorizationParams :=
  { state, scopes, code_challenge, redirect_uri, redirect_uri_provided_explicitly,
    resource, _created_at := none }

/-- `mcp.server.auth.provider.AuthorizationCode` (fields set in auth.py 152-161). -/
structure AuthorizationCode where
  code : String
  scopes : List String
  expires_at : Nat
  client_id : String
  code_challenge : String
  redirect_uri : String
  redirect_uri_provided_explicitly : Bool
  resource : Option String
deriving DecidableEq, Repr

/-- `mcp.server.auth.provider.AccessToken`. -/
structure AccessToken where
  token : TokenString
  client_id : String
  scopes : List String
  expires_at : Option Nat
deriving DecidableEq, Repr

/-- `mcp.server.auth.provider.RefreshToken`. -/
structure RefreshToken where
  token : TokenString
  client_id : String
  scopes : List String
  expires_at : Option Nat
deriving DecidableEq, Repr

/-- `mcp.shared.auth.OAuthToken` as built in auth.py 216-222 / 271-277. -/
structure OAuthToken where
  access_token : TokenString
  token_type : String
  expires_in : Nat
  scope : Option String
  refresh_token : Option TokenString
deriving DecidableEq, Repr

/-- `mcp.server.auth.provider.RegistrationError`. -/
structure RegistrationError where
  error : String
  error_description : String
deriving DecidableEq, Repr

/-- Python exceptions raised by the consent operations. `InvalidPINError`
subclasses `ValueError` (auth.py 64-65), so both constructors are caught by
an `except ValueError` clause. -/
inductive PyError where
  | valueError (msg : String)
  | invalidPINError (msg : String)
deriving DecidableEq, Repr

/-- Model of mcp's `construct_redirect_uri` (external collaborator): appends
the given query parameters to the redirect URI, skipping parameters whose
value is None. -/
def construct_redirect_uri (redirect_uri_base : String)
    (qparams : List (String × Option String)) : String :=
  redirect_uri_base ++ "?" ++
    String.intercalate "&"
      (qparams.filterMap (fun e => e.2.map (fun v => e.1 ++ "=" ++ v)))

/-! ## Provider state (`BybitOAuthProvider.__init__`, auth.py 73-90) -/

/-- The mutable state of one `BybitOAuthProvider` instance. `api_key` is a
Python string that, like a presented bearer token, lives in `TokenString`
(the Python empty string is `TokenString.raw ""`). `revoked_jtis` is a set;
a list with membership models it (insertion is `cons`). -/
structure BybitOAuthProvider where
  oauth_secret : String
  api_key : TokenString
  consent_pin : String
  clients : List (String × OAuthClientInformationFull)
  auth_codes : List (String × AuthorizationCode)
  pending_consents : List (String × (OAuthClientInformationFull × AuthorizationParams))
  revoked_jtis : List String
  pin_failures : List (String × Nat)
deriving DecidableEq, Repr

/-- `BybitOAuthProvider.__init__`: all stores start empty. -/
def BybitOAuthProvider.init (oauth_secret : String)
    (api_key : TokenString) (consent_pin : String) :
    BybitOAuthProvider :=
  { oauth_secret, api_key, consent_pin, clients := [], auth_codes := [],
    pending_consents := [], revoked_jtis := [], pin_failures := [] }

/-! ## JWT helpers (auth.py 319-349) -/

/-- `BybitOAuthProvider._create_jwt`. The wall clock (`int(time.time())`) and
the fresh random `jti` (`secrets.token_urlsafe(16)`) are explicit inputs. -/
def BybitOAuthProvider._create_jwt (p : BybitOAuthProvider) (now : Nat)
    (jti : String) (sub : String) (token_type : String) (scopes : List String)
    (ttl : Nat) : TokenString :=
  .blob { sub, type := token_type, scopes, iat := now, exp := now + ttl,
          iss := "bybit-mcp", aud := "bybit-mcp", jti } p.oauth_secret

/-- `BybitOAuthProvider._decode_jwt`. `jwt.decode` verifies the signature
(modelled as secret equality), the fixed issuer and audience, and that the
token is unexpired (`now < exp`), together; any failure yields `None`. A
valid payload is then rejected when its jti is blacklisted, unless
`skip_revocation_check` is set. -/
def BybitOAuthProvider._decode_jwt (p : BybitOAuthProvider) (now : Nat)
    (token : TokenString) (skip_revocation_check : Bool) :
    Option JwtPayload :=
  match token with
  | .raw _ => none
  | .blob payload secret =>
    if secret = p.oauth_secret ∧ payload.iss = "bybit-mcp" ∧
        payload.aud = "bybit-mcp" ∧ now < payload.exp then
      if ¬skip_revocation_check ∧ payload.jti ∈ p.revoked_jtis then none
      else some payload
    else none

/-! ## Sliding-window rate limiter (auth.py 40-61) -/

/-- `RateLimiter`: per-key event timestamps (`defaultdict(list)`).
`time.monotonic()` values are modelled as integers. -/
structure RateLimiter where
  max_requests : Nat
  window_seconds : Nat
  timestamps : List (String × List Int)
deriving DecidableEq, Repr

/-- The prune step of `RateLimiter.check` (auth.py 53): the key's timestamps
strictly newer than `now - window_seconds`. A missing key reads as `[]`
(`defaultdict(list)`). -/
def RateLimiter.pruned (rl : RateLimiter) (now : Int) (key : String) : List Int :=
  ((dictGet rl.timestamps key).getD []).filter
    (fun t => now - (rl.window_seconds : Int) < t)

/-- `RateLimiter.check` (auth.py 48-57): prune timestamps at or before
`now - window`, then allow and record iff the remaining count is strictly
below `max_requests`; the pruned list is written back either way. Returns
(allowed, new state). -/
def RateLimiter.check (rl : RateLimiter) (now : Int) (key : String) :
    Bool × RateLimiter :=
  let pruned := rl.pruned now key
  if rl.max_requests ≤ pruned.length then
    (false, { rl with timestamps := dictInsert rl.timestamps key pruned })
  else
    (true, { rl with timestamps := dictInsert rl.timestamps key (pruned ++ [now]) })

/-- The module-level `_registration_limiter = RateLimiter(5, 600)` (auth.py 61). -/
def _registration_limiter : RateLimiter :=
  { max_requests := 5, window_seconds := 600, timestamps := [] }

/-! ## Client management (auth.py 96-107) -/

/-- `BybitOAuthProvider.get_client`. -/
def BybitOAuthProvider.get_client (p : BybitOAuthProvider) (client_id : String) :
    Option OAuthClientInformationFull :=
  dictGet p.clients client_id

/-- `BybitOAuthProvider.register_client` (auth.py 99-107): consult the global
registration rate limiter; on denial raise `RegistrationError`, otherwise
store the client record. The limiter state is threaded explicitly because the
Python limiter is module-global. -/
def BybitOAuthProvider.register_client (p : BybitOAuthProvider)
    (limiter : RateLimiter) (now : Int)
    (client_info : OAuthClientInformationFull) :
    RateLimiter × Except RegistrationError BybitOAuthProvider :=
  let c := limiter.check now "global"
  if c.1 then
    (c.2, .ok { p with clients := dictInsert p.clients client_info.client_id client_info })
  else
    (c.2, .error { error := "invalid_client_metadata",
                   error_description := "Rate limit exceeded. Try again later." })

/-! ## Authorization flow (auth.py 113-180) -/

/-- `BybitOAuthProvider.authorize` (auth.py 113-121): store the pending consent
under a fresh `consent_id` (`secrets.token_urlsafe(32)`, an explicit input)
and return the consent-page URL. -/
def BybitOAuthProvider.authorize (p : BybitOAuthProvider) (consent_id : String)
    (client : OAuthClientInformationFull) (params : AuthorizationParams) :
    BybitOAuthProvider × String :=
  ({ p with pending_consents := dictInsert p.pending_consents consent_id (client, params) },
   "/consent?id=" ++ consent_id)

/-- The success tail of `approve_consent` (auth.py 147-167): clear the failure
counter, consume the pending consent, mint the authorization code with a
10-minute expiry, and return the redirect URL carrying code and state. -/
def BybitOAuthProvider.approve_success (p : BybitOAuthProvider) (now : Nat)
    (code : String) (consent_id : String)
    (client : OAuthClientInformationFull) (params : AuthorizationParams) :
    BybitOAuthProvider × Except PyError String :=
  let ac : AuthorizationCode :=
    { code, scopes := params.scopes.getD [], expires_at := now + _AUTH_CODE_TTL,
      client_id := client.client_id, code_challenge := params.code_challenge,
      redirect_uri := params.redirect_uri,
      redirect_uri_provided_explicitly := params.redirect_uri_provided_explicitly,
      resource := params.resource }
  ({ p with pin_failures := dictPop p.pin_failures consent_id,
            pending_consents := dictPop p.pending_consents consent_id,
            auth_codes := dictInsert p.auth_codes code ac },
   .ok (construct_redirect_uri params.redirect_uri
          [("code", some code), ("state", params.state)]))

/-- `BybitOAuthProvider.approve_consent` (auth.py 123-167). `now` is
`time.time()`, `code` is the fresh `secrets.token_urlsafe(32)` minted on
success. Python raising an exception still keeps the mutations made before the
raise, so the new state is returned alongside the `Except` result. -/
def BybitOAuthProvider.approve_consent (p : BybitOAuthProvider) (now : Nat)
    (code : String) (consent_id : String) (pin : String) :
    BybitOAuthProvider × Except PyError String :=
  match dictGet p.pending_consents consent_id with
  | none => (p, .error (.valueError "Invalid or expired consent"))
  | some cp =>
    if p.consent_pin ≠ "" then
      let failures := (dictGet p.pin_failures consent_id).getD 0
      if _MAX_PIN_ATTEMPTS ≤ failures then
        ({ p with pending_consents := dictPop p.pending_consents consent_id,
                  pin_failures := dictPop p.pin_failures consent_id },
         .error (.invalidPINError "Too many failed attempts. Authorization cancelled."))
      else if pin ≠ p.consent_pin then
        ({ p with pin_failures := dictInsert p.pin_failures consent_id (failures + 1) },
         .error (.invalidPINError "Invalid PIN"))
      else
        p.approve_success now code consent_id cp.1 cp.2
    else
      p.approve_success now code consent_id cp.1 cp.2

/-- `BybitOAuthProvider.deny_consent` (auth.py 169-180). -/
def BybitOAuthProvider.deny_consent (p : BybitOAuthProvider)
    (consent_id : String) : BybitOAuthProvider × Except PyError String :=
  match dictGet p.pending_consents consent_id with
  | none => (p, .error (.valueError "Invalid or expired consent"))
  | some cp =>
    ({ p with pending_consents := dictPop p.pending_consents consent_id },
     .ok (construct_redirect_uri cp.2.redirect_uri
            [("error", some "access_denied"),
             ("error_description", some "User denied access"),
             ("state", cp.2.state)]))

/-! ## Authorization code exchange (auth.py 186-222) -/

/-- `BybitOAuthProvider.load_authorization_code`. -/
def BybitOAuthProvider.load_authorization_code (p : BybitOAuthProvider)
    (client : OAuthClientInformationFull) (authorization_code : String) :
    Option AuthorizationCode :=
  dictGet p.auth_codes authorization_code

/-- `BybitOAuthProvider.exchange_authorization_code` (auth.py 193-222): the
code is popped from the store first and unconditionally, then an
access/refresh pair is minted over the code's scopes. `jti_access` /
`jti_refresh` are the fresh jtis drawn inside `_create_jwt`. -/
def BybitOAuthProvider.exchange_authorization_code (p : BybitOAuthProvider)
    (now : Nat) (jti_access jti_refresh : String)
    (client : OAuthClientInformationFull)
    (authorization_code : AuthorizationCode) :
    BybitOAuthProvider × OAuthToken :=
  let p1 := { p with auth_codes := dictPop p.auth_codes authorization_code.code }
  let scopes := authorization_code.scopes
  let access_token :=
    p1._create_jwt now jti_access client.client_id "access" scopes _ACCESS_TOKEN_TTL
  let refresh_token :=
    p1._create_jwt now jti_refresh client.client_id "refresh" scopes _REFRESH_TOKEN_TTL
  (p1,
   { access_token, token_type := "Bearer", expires_in := _ACCESS_TOKEN_TTL,
     scope := if scopes = [] then none else some (String.intercalate " " scopes),
     refresh_token := some refresh_token })

/-! ## Refresh token (auth.py 228-277) -/

/-- `BybitOAuthProvider.load_refresh_token`. -/
def BybitOAuthProvider.load_refresh_token (p : BybitOAuthProvider) (now : Nat)
    (client : OAuthClientInformationFull) (refresh_token : TokenString) :
    Option RefreshToken :=
  match p._decode_jwt now refresh_token false with
  | none => none
  | some payload =>
    if payload.type ≠ "refresh" then none
    else if payload.sub ≠ client.client_id then none
    else some { token := refresh_token, client_id := payload.sub,
                scopes := payload.scopes, expires_at := some payload.exp }

/-- `BybitOAuthProvider.exchange_refresh_token` (auth.py 245-277): pick the
caller's scopes when nonempty (no subset check) else the token's, blacklist
the presented token's jti via the revocation-bypass decode, then mint a new
pair over the chosen scopes. -/
def BybitOAuthProvider.exchange_refresh_token (p : BybitOAuthProvider)
    (now : Nat) (jti_access jti_refresh : String)
    (client : OAuthClientInformationFull) (refresh_token : RefreshToken)
    (scopes : List String) : BybitOAuthProvider × OAuthToken :=
  let use_scopes := if scopes ≠ [] then scopes else refresh_token.scopes
  let p1 :=
    match p._decode_jwt now refresh_token.token true with
    | some old_payload =>
      if old_payload.jti ≠ "" then
        { p with revoked_jtis := old_payload.jti :: p.revoked_jtis }
      else p
    | none => p
  let access_token :=
    p1._create_jwt now jti_access client.client_id "access" use_scopes _ACCESS_TOKEN_TTL
  let new_refresh :=
    p1._create_jwt now jti_refresh client.client_id "refresh" use_scopes _REFRESH_TOKEN_TTL
  (p1,
   { access_token, token_type := "Bearer", expires_in := _ACCESS_TOKEN_TTL,
     scope := if use_scopes = [] then none
              else some (String.intercalate " " use_scopes),
     refresh_token := some new_refresh })

/-! ## Access token verification and revocation (auth.py 283-313) -/

/-- `BybitOAuthProvider.load_access_token` (auth.py 283-302): static-API-key
branch first (`if self.api_key and secrets.compare_digest(token, self.api_key)`,
i.e. a configured nonempty key that equals the presented string), then the
JWT branch requiring `type == "access"`. -/
def BybitOAuthProvider.load_access_token (p : BybitOAuthProvider) (now : Nat)
    (token : TokenString) : Option AccessToken :=
  if p.api_key ≠ TokenString.raw "" ∧ token = p.api_key then
    some { token, client_id := "api-key", scopes := ["all"], expires_at := none }
  else
    match p._decode_jwt now token false with
    | none => none
    | some payload =>
      if payload.type ≠ "access" then none
      else some { token, client_id := payload.sub, scopes := payload.scopes,
                  expires_at := some payload.exp }

/-- `BybitOAuthProvider.revoke_token` (auth.py 308-313): decode the raw token
string bypassing the revocation check; if a nonempty jti is present, add it to
the blacklist. -/
def BybitOAuthProvider.revoke_token (p : BybitOAuthProvider) (now : Nat)
    (token : TokenString) : BybitOAuthProvider :=
  match p._decode_jwt now token true with
  | some payload =>
    if payload.jti ≠ "" then
      { p with revoked_jtis := payload.jti :: p.revoked_jtis }
    else p
  | none => p

/-! ## Consent sweep (auth.py 351-359) -/

/-- `BybitOAuthProvider.cleanup_expired_consents`: drop every pending consent
whose params expose a `_created_at` older than the auth-code TTL. Entries
without the attribute are kept. -/
def BybitOAuthProvider.cleanup_expired_consents (p : BybitOAuthProvider)
    (now : Nat) : BybitOAuthProvider :=
  { p with pending_consents :=
      p.pending_consents.filter (fun e =>
        match e.2.2._created_at with
        | some c => !(decide (_AUTH_CODE_TTL < now - c))
        | none => true) }

/-! ## Consent HTTP endpoint (server.py 46-75) -/

/-- A Starlette response as produced by `consent_page`. -/
inductive HttpResponse where
  | plain (body : String) (status_code : Nat)
  | redirect (url : String) (status_code : Nat)
deriving DecidableEq, Repr

/-- The POST form data of the consent endpoint. `consent_id` and `action`
default to `""` / `"deny"` when absent; `pin` is carried by the form but, as
in server.py, the handler below never reads it. -/
structure ConsentForm where
  consent_id : Option String
  action : Option String
  pin : Option String
deriving DecidableEq, Repr

/-- The POST branch of `consent_page` (server.py 62-75): dispatch to
`approve_consent` (called as `approve_consent(consent_id)`, i.e. with the
default empty pin) or `deny_consent`; 302 redirect on success, 400 on any
`ValueError` (which `InvalidPINError` subclasses). -/
def consent_page_post (p : BybitOAuthProvider) (now : Nat) (code : String)
    (form : ConsentForm) : BybitOAuthProvider × HttpResponse :=
  let consent_id := form.consent_id.getD ""
  let action := form.action.getD "deny"
  let r :=
    if action = "approve" then
      p.approve_consent now code consent_id ""
    else
      p.deny_consent consent_id
  match r with
  | (p', .ok redirect_url) => (p', .redirect redirect_url 302)
  | (p', .error _) => (p', .plain "Invalid or expired consent request" 400)

/-! ## Concrete fixtures used by counterexamples and witnesses -/

/-- A registered client whose declared software_id does not match any
configured registration token. -/
def clientX : OAuthClientInformationFull :=
  { client_id := "client-x", redirect_uris := ["http://localhost/cb"],
    software_id := some "not-the-token" }

/-- A client with no software_id. -/
def clientY : OAuthClientInformationFull :=
  { client_id := "client-y", redirect_uris := ["http://localhost/cb"],
    software_id := none }

/-- AuthorizationParams exactly as the mcp framework hands them to
`authorize`: no `_created_at` attribute. -/
def paramsY : AuthorizationParams :=
  mkFrameworkAuthorizationParams (some "st") (some ["all"]) "chal"
    "http://localhost/cb" true none

/-- The consent-endpoint provider fixture: consent PIN "1234" configured and
one pending consent "cid1" created by `authorize`. -/
def p4 : BybitOAuthProvider :=
  ((BybitOAuthProvider.init "s" (.raw "") "1234").authorize "cid1" clientY paramsY).1

/-- The refresh token presented in the C6 witness: a valid blob under secret
"s" whose grant is only ["read"]. -/
def rt6 : RefreshToken :=
  { token := .blob { sub := "c", type := "refresh", scopes := ["read"],
                     iat := 0, exp := 100, iss := "bybit-mcp",
                     aud := "bybit-mcp", jti := "jold" } "s",
    client_id := "c", scopes := ["read"], expires_at := some 100 }

/-- Iterated consent-approval attempts: fold `approve_consent` over a list of
submitted PINs, keeping the state of each attempt (auth.py mutates `self` on
every failed attempt). -/
def BybitOAuthProvider.approveAttempts (p : BybitOAuthProvider) (now : Nat)
    (code : String) (consent_id : String) (pins : List String) :
    BybitOAuthProvider :=
  pins.foldl (fun st pin => (st.approve_consent now code consent_id pin).1) p

/-- Payloads and tokens for the C8 witness. -/
def plJ1 : JwtPayload :=
  { sub := "c", type := "access", scopes := [], iat := 0, exp := 100,
    iss := "bybit-mcp", aud := "bybit-mcp", jti := "j1" }

/-- Second payload, differing from `plJ1` only in its jti. -/
def plJ2 : JwtPayload :=
  { sub := "c", type := "access", scopes := [], iat := 0, exp := 100,
    iss := "bybit-mcp", aud := "bybit-mcp", jti := "j2" }

/-- The two issued tokens of the C8 witness, signed under secret "s". -/
def tokJ1 : TokenString := .blob plJ1 "s"

/-- The second issued token. -/
def tokJ2 : TokenString := .blob plJ2 "s"

/-- The bare provider used by several witnesses. -/
def p8 : BybitOAuthProvider := BybitOAuthProvider.init "s" (.raw "") ""

/-- The C3 witness provider: consent PIN "9999" and pending consent "c1". -/
def pC : BybitOAuthProvider :=
  ((BybitOAuthProvider.init "s" (.raw "") "9999").authorize "c1" clientY paramsY).1

/-! ## Theorems -/

theorem dictGet_filter {α : Type} (d : List (String × α)) (k k' : String) :
    dictGet (d.filter (fun e => !(decide (e.1 = k)))) k' =
      if k' = k then none else dictGet d k' := by
  induction d with
  | nil => simp [dictGet]
  | cons e es ih =>
    by_cases he : e.1 = k
    · rw [List.filter_cons_of_neg (by simp [he]), ih]
      by_cases hk : k' = k
      · simp [hk]
      · have hek' : ¬ e.1 = k' := fun hh => hk (hh.symm.trans he)
        simp [dictGet, hk, hek']
    · rw [List.filter_cons_of_pos (by simp [he])]
      by_cases hek : e.1 = k'
      · have hk : ¬ k' = k := fun hh => he (hek.trans hh)
        simp [dictGet, hek, hk]
      · simpa [dictGet, hek] using ih

theorem dictGet_dictPop_self {α : Type} (d : List (String × α)) (k : String) :
    dictGet (dictPop d k) k = none := by
  simp [dictPop, dictGet_filter]

theorem dictGet_dictPop_ne {α : Type} (d : List (String × α)) (k k' : String)
    (h : k' ≠ k) : dictGet (dictPop d k) k' = dictGet d k' := by
  simp [dictPop, dictGet_filter, h]

theorem dictGet_dictInsert_self {α : Type} (d : List (String × α)) (k : String) (v : α) :
    dictGet (dictInsert d k v) k = some v := by
  simp [dictInsert, dictGet]

theorem dictGet_dictInsert_ne {α : Type} (d : List (String × α)) (k k' : String) (v : α)
    (h : k' ≠ k) : dictGet (dictInsert d k v) k' = dictGet d k' := by
  simp [dictInsert, dictGet, Ne.symm h, dictGet_filter, h]

/-! ## Claim theorems -/

/-- C2: `exchange_authorization_code` removes the code from the store as its
first step, unconditionally — the resulting store is exactly the original with
the code popped, for every state, client and code (no validation can reorder
or skip it) — so a second exchange attempt presenting the same code finds
nothing to load, even though the first attempt's tokens are never used. -/
theorem exchange_authorization_code_single_use
    (p : BybitOAuthProvider) (now : Nat) (jti_access jti_refresh : String)
    (client client2 : OAuthClientInformationFull) (ac : AuthorizationCode) :
    (p.exchange_authorization_code now jti_access jti_refresh client ac).1.auth_codes
        = dictPop p.auth_codes ac.code
    ∧ (p.exchange_authorization_code now jti_access jti_refresh client ac).1.load_authorization_code
        client2 ac.code = none := by
  refine ⟨rfl, ?_⟩
  simp [BybitOAuthProvider.exchange_authorization_code,
        BybitOAuthProvider.load_authorization_code, dictGet_dictPop_self]

/-- C7: verifying a token immediately after issuing it (same clock instant,
fresh jti) succeeds and returns the subject, token type and scopes unchanged,
for every ttl > 0. -/
theorem create_then_decode_roundtrip
    (p : BybitOAuthProvider) (now : Nat) (jti s t : String)
    (scopes : List String) (ttl : Nat) (httl : 0 < ttl)
    (hfresh : jti ∉ p.revoked_jtis) :
    p._decode_jwt now (p._create_jwt now jti s t scopes ttl) false =
      some { sub := s, type := t, scopes := scopes, iat := now,
             exp := now + ttl, iss := "bybit-mcp", aud := "bybit-mcp",
             jti := jti } := by
  simp [BybitOAuthProvider._create_jwt, BybitOAuthProvider._decode_jwt,
        hfresh, Nat.lt_add_of_pos_right httl]

/-- Witness for C7 at a concrete issuance. -/
theorem create_then_decode_roundtrip_witness :
    (0 : Nat) < 3600 ∧
    (BybitOAuthProvider.init "s" (.raw "") "")._decode_jwt 0
      ((BybitOAuthProvider.init "s" (.raw "") "")._create_jwt 0 "j" "c" "access"
        ["all"] 3600) false =
      some { sub := "c", type := "access", scopes := ["all"], iat := 0,
             exp := 0 + 3600, iss := "bybit-mcp", aud := "bybit-mcp",
             jti := "j" } :=
  ⟨by decide,
   create_then_decode_roundtrip (BybitOAuthProvider.init "s" (.raw "") "")
     0 "j" "c" "access" ["all"] 3600 (by decide) (by simp [BybitOAuthProvider.init])⟩

/-- C9: each rate-limiter check first prunes the key's timestamps to those
strictly newer than `now - window`, then allows and records iff the remaining
count is strictly below the maximum (denial stores the pruned list without
recording); concretely, with max=3 and window=60s, three checks on one key
succeed, a fourth immediately fails, and a different key is unaffected. -/
theorem rate_limiter_check_spec (rl : RateLimiter) (now : Int) (key : String) :
    (((rl.check now key).1 = true ↔
        (rl.pruned now key).length < rl.max_requests)
     ∧ dictGet (rl.check now key).2.timestamps key =
         some (if (rl.pruned now key).length < rl.max_requests then
                 rl.pruned now key ++ [now]
               else rl.pruned now key))
    ∧ (let l0 : RateLimiter :=
         { max_requests := 3, window_seconds := 60, timestamps := [] }
       let r1 := l0.check 0 "a"
       let r2 := r1.2.check 1 "a"
       let r3 := r2.2.check 2 "a"
       let r4 := r3.2.check 3 "a"
       let r5 := r4.2.check 3 "b"
       r1.1 = true ∧ r2.1 = true ∧ r3.1 = true ∧ r4.1 = false ∧ r5.1 = true) := by
  constructor
  · by_cases h : rl.max_requests ≤ (rl.pruned now key).length
    · simp [RateLimiter.check, h, Nat.not_lt.mpr h, dictGet_dictInsert_self]
    · simp [RateLimiter.check, h, Nat.not_le.mp h, dictGet_dictInsert_self]
  · decide

/-- C10: with an empty static API key the static-key branch of
`load_access_token` is dead: no plain string authenticates (in particular the
empty string presented as bearer token), and the synthetic "api-key" grant
(recognizable as the only grant without an expiry) is never produced; in
general that synthetic grant arises only when the configured key is nonempty
and the presented token equals it. -/
theorem load_access_token_empty_key_safety
    (p : BybitOAuthProvider) (now : Nat) :
    (p.api_key = .raw "" →
      (∀ s, p.load_access_token now (.raw s) = none)
      ∧ ∀ tok, p.load_access_token now tok ≠
          some { token := tok, client_id := "api-key", scopes := ["all"],
                 expires_at := none })
    ∧ ∀ tok g, p.load_access_token now tok = some g → g.expires_at = none →
        p.api_key ≠ .raw "" ∧ tok = p.api_key ∧ g.client_id = "api-key" := by
  constructor
  · intro hkey
    constructor
    · intro s
      simp [BybitOAuthProvider.load_access_token, hkey,
            BybitOAuthProvider._decode_jwt]
    · intro tok
      simp only [BybitOAuthProvider.load_access_token, hkey]
      simp only [ne_eq, not_true_eq_false, false_and, if_false]
      match hdec : p._decode_jwt now tok false with
      | none => simp
      | some payload =>
        by_cases ht : payload.type = "access"
        · simp [ht]
        · simp [ht]
  · intro tok g hload hexp
    by_cases hstat : p.api_key ≠ TokenString.raw "" ∧ tok = p.api_key
    · refine ⟨hstat.1, hstat.2, ?_⟩
      simp [BybitOAuthProvider.load_access_token, hstat] at hload
      rw [← hload]
    · exfalso
      simp only [BybitOAuthProvider.load_access_token, if_neg hstat] at hload
      match hdec : p._decode_jwt now tok false with
      | none => rw [hdec] at hload; simp at hload
      | some payload =>
        rw [hdec] at hload
        by_cases ht : payload.type = "access"
        · simp [ht] at hload
          rw [← hload] at hexp
          simp at hexp
        · simp [ht] at hload

/-- Witness for C10: a provider constructed with an empty api_key rejects the
empty string as a bearer token. -/
theorem load_access_token_empty_key_safety_witness :
    (BybitOAuthProvider.init "s" (.raw "") "").api_key = .raw "" ∧
    (BybitOAuthProvider.init "s" (.raw "") "").load_access_token 0 (.raw "") = none :=
  ⟨rfl,
   ((load_access_token_empty_key_safety
      (BybitOAuthProvider.init "s" (.raw "") "") 0).1 rfl).1 ""⟩

/-- C1 counterexample: with a registration token configured (a nonempty
string, here "configured-token" as `REGISTRATION_TOKEN` in config.py) and a
caller whose declared software_id differs from it, `register_client` still
accepts the registration — the token is never consulted, refuting the claim
that such a request is rejected as unapproved. -/
theorem register_client_accepts_mismatched_software_id :
    ("configured-token" : String) ≠ "" ∧
    clientX.software_id = some "not-the-token" ∧
    some "not-the-token" ≠ some ("configured-token" : String) ∧
    ((BybitOAuthProvider.init "s" (.raw "") "").register_client
        _registration_limiter 0 clientX).2 =
      .ok { BybitOAuthProvider.init "s" (.raw "") "" with
            clients := dictInsert [] "client-x" clientX } := by
  refine ⟨by decide, rfl, by decide, ?_⟩
  rfl

/-- C1 amended: `register_client` never consults the configured registration
token or the caller's software_id — its accept/reject decision coincides with
the global rate limiter's verdict and is identical for any two client
records; acceptance stores the client under its client_id. -/
theorem register_client_gated_only_by_rate_limit
    (p : BybitOAuthProvider) (limiter : RateLimiter) (now : Int)
    (ci ci' : OAuthClientInformationFull) :
    ((p.register_client limiter now ci).2.isOk = (limiter.check now "global").1)
    ∧ ((p.register_client limiter now ci).2.isOk =
        (p.register_client limiter now ci').2.isOk)
    ∧ ((limiter.check now "global").1 = true →
        (p.register_client limiter now ci).2 =
          .ok { p with clients := dictInsert p.clients ci.client_id ci }) := by
  refine ⟨?_, ?_, ?_⟩
  · by_cases h : (limiter.check now "global").1
    · simp [BybitOAuthProvider.register_client, h, Except.isOk, Except.toBool]
    · simp [BybitOAuthProvider.register_client, h, Except.isOk, Except.toBool]
  · by_cases h : (limiter.check now "global").1
    · simp [BybitOAuthProvider.register_client, h, Except.isOk, Except.toBool]
    · simp [BybitOAuthProvider.register_client, h, Except.isOk, Except.toBool]
  · intro h
    simp [BybitOAuthProvider.register_client, h]

/-- Witness for (the amended) C1: on a fresh limiter the rate limit allows,
and registration accepts and stores the client. -/
theorem register_client_gated_only_by_rate_limit_witness :
    (_registration_limiter.check 0 "global").1 = true ∧
    ((BybitOAuthProvider.init "s" (.raw "") "").register_client
        _registration_limiter 0 clientY).2 =
      .ok { BybitOAuthProvider.init "s" (.raw "") "" with
            clients := dictInsert [] "client-y" clientY } :=
  ⟨by decide,
   (register_client_gated_only_by_rate_limit
      (BybitOAuthProvider.init "s" (.raw "") "") _registration_limiter 0
      clientY clientY).2.2 (by decide)⟩

/-- C5 (code bug): `authorize` stores the framework's params, which carry no
`_created_at` attribute, so `cleanup_expired_consents` — whose docstring
promises to remove pending consents older than the 10-minute auth-code TTL —
removes nothing: a consent created at time 0 is still pending when the sweep
runs at t = 601 s (> 600 s TTL). -/
theorem cleanup_expired_consents_misses_authorize_consents :
    dictGet (((((BybitOAuthProvider.init "s" (.raw "") "").authorize "cid1"
        clientY paramsY).1).cleanup_expired_consents 601).pending_consents)
        "cid1" = some (clientY, paramsY)
    ∧ ((((BybitOAuthProvider.init "s" (.raw "") "").authorize "cid1"
        clientY paramsY).1).cleanup_expired_consents 601).pending_consents =
      (((BybitOAuthProvider.init "s" (.raw "") "").authorize "cid1"
        clientY paramsY).1).pending_consents := by
  exact ⟨rfl, rfl⟩

/-- C4 (code bug): the consent endpoint never reads the form's pin field —
server.py calls `approve_consent(consent_id)` with the default empty pin. On a
provider with consent PIN "1234" and pending consent "cid1", a POST carrying
the correct pin "1234" yields the 400 response instead of the redirect,
although `approve_consent` called with that very pin succeeds; and the
response is literally identical whatever pin the form carries. -/
theorem consent_endpoint_drops_pin :
    (consent_page_post p4 0 "code1"
        { consent_id := some "cid1", action := some "approve", pin := some "1234" }).2
      = .plain "Invalid or expired consent request" 400
    ∧ (p4.approve_consent 0 "code1" "cid1" "1234").2
      = .ok (construct_redirect_uri "http://localhost/cb"
          [("code", some "code1"), ("state", some "st")])
    ∧ (consent_page_post p4 0 "code1"
        { consent_id := some "cid1", action := some "approve", pin := some "1234" })
      = (consent_page_post p4 0 "code1"
        { consent_id := some "cid1", action := some "approve", pin := none }) := by
  exact ⟨rfl, rfl, rfl⟩

/-- C6: on refresh exchange the presented token's jti is pushed onto the
revocation blacklist (via the bypass decode) as part of producing the final
state, and the minted access/refresh pair carries exactly the caller-supplied
scope list whenever it is nonempty — with no requirement that it be a subset
of the token's scopes — while an empty request carries the token's scopes
over unchanged. -/
theorem exchange_refresh_token_rotates_and_trusts_scopes
    (p : BybitOAuthProvider) (now : Nat) (ja jr : String)
    (client : OAuthClientInformationFull) (rt : RefreshToken)
    (scopes : List String) (pl : JwtPayload)
    (hdec : p._decode_jwt now rt.token true = some pl) (hjti : pl.jti ≠ "") :
    (p.exchange_refresh_token now ja jr client rt scopes).1.revoked_jtis =
        pl.jti :: p.revoked_jtis
    ∧ (p.exchange_refresh_token now ja jr client rt scopes).2.access_token =
        .blob { sub := client.client_id, type := "access",
                scopes := if scopes ≠ [] then scopes else rt.scopes,
                iat := now, exp := now + _ACCESS_TOKEN_TTL,
                iss := "bybit-mcp", aud := "bybit-mcp", jti := ja } p.oauth_secret
    ∧ (p.exchange_refresh_token now ja jr client rt scopes).2.refresh_token =
        some (.blob { sub := client.client_id, type := "refresh",
                      scopes := if scopes ≠ [] then scopes else rt.scopes,
                      iat := now, exp := now + _REFRESH_TOKEN_TTL,
                      iss := "bybit-mcp", aud := "bybit-mcp",
                      jti := jr } p.oauth_secret) := by
  refine ⟨?_, ?_, ?_⟩ <;>
    simp [BybitOAuthProvider.exchange_refresh_token, hdec, hjti,
          BybitOAuthProvider._create_jwt]

/-- Witness for C6: requesting scopes ["read", "trade"] — not a subset of the
original ["read"] grant — yields tokens carrying exactly ["read", "trade"],
and "jold" lands on the blacklist. -/
theorem exchange_refresh_token_rotates_and_trusts_scopes_witness :
    ((BybitOAuthProvider.init "s" (.raw "") "").exchange_refresh_token 0 "ja" "jr"
        clientY rt6 ["read", "trade"]).1.revoked_jtis = "jold" :: []
    ∧ ((BybitOAuthProvider.init "s" (.raw "") "").exchange_refresh_token 0 "ja" "jr"
        clientY rt6 ["read", "trade"]).2.access_token =
        .blob { sub := "client-y", type := "access",
                scopes := if (["read", "trade"] : List String) ≠ [] then ["read", "trade"] else rt6.scopes,
                iat := 0, exp := 0 + _ACCESS_TOKEN_TTL,
                iss := "bybit-mcp", aud := "bybit-mcp", jti := "ja" } "s"
    ∧ ((BybitOAuthProvider.init "s" (.raw "") "").exchange_refresh_token 0 "ja" "jr"
        clientY rt6 ["read", "trade"]).2.refresh_token =
        some (.blob { sub := "client-y", type := "refresh",
                      scopes := if (["read", "trade"] : List String) ≠ [] then
                                  ["read", "trade"]
                                else rt6.scopes,
                      iat := 0, exp := 0 + _REFRESH_TOKEN_TTL,
                      iss := "bybit-mcp", aud := "bybit-mcp",
                      jti := "jr" } "s") :=
  exchange_refresh_token_rotates_and_trusts_scopes
    (BybitOAuthProvider.init "s" (.raw "") "") 0 "ja" "jr" clientY rt6
    ["read", "trade"]
    { sub := "c", type := "refresh", scopes := ["read"], iat := 0, exp := 100,
      iss := "bybit-mcp", aud := "bybit-mcp", jti := "jold" }
    rfl (by decide)

/-- C8: after `revoke_token` blacklists a decodable token's (nonempty) jti,
every subsequent verification of that token fails at any clock value, while
the decode result of any token whose jti differs is exactly what it was
before the revocation. -/
theorem revoke_token_blacklists_and_frames
    (p : BybitOAuthProvider) (now : Nat) (t1 : TokenString) (pl1 : JwtPayload)
    (h1 : p._decode_jwt now t1 true = some pl1) (h2 : pl1.jti ≠ "") :
    (∀ now2, (p.revoke_token now t1)._decode_jwt now2 t1 false = none)
    ∧ (∀ (now2 : Nat) (sk : Bool) (pl2 : JwtPayload) (s2 : String),
        pl2.jti ≠ pl1.jti →
        (p.revoke_token now t1)._decode_jwt now2 (.blob pl2 s2) sk =
          p._decode_jwt now2 (.blob pl2 s2) sk) := by
  cases t1 with
  | raw s => simp [BybitOAuthProvider._decode_jwt] at h1
  | blob pl sec =>
    have h1' := h1
    simp only [BybitOAuthProvider._decode_jwt] at h1'
    by_cases hcond : sec = p.oauth_secret ∧ pl.iss = "bybit-mcp" ∧
        pl.aud = "bybit-mcp" ∧ now < pl.exp
    · rw [if_pos hcond] at h1'
      have hpl : pl = pl1 := by simpa using h1'
      subst hpl
      have hrev : p.revoke_token now (.blob pl sec) =
          { p with revoked_jtis := pl.jti :: p.revoked_jtis } := by
        simp [BybitOAuthProvider.revoke_token, h1, h2]
      constructor
      · intro now2
        rw [hrev]
        simp only [BybitOAuthProvider._decode_jwt]
        by_cases hc2 : sec = p.oauth_secret ∧ pl.iss = "bybit-mcp" ∧
            pl.aud = "bybit-mcp" ∧ now2 < pl.exp
        · simp [hc2]
        · simp [hc2]
      · intro now2 sk pl2 s2 hne
        rw [hrev]
        simp only [BybitOAuthProvider._decode_jwt]
        by_cases hc2 : s2 = p.oauth_secret ∧ pl2.iss = "bybit-mcp" ∧
            pl2.aud = "bybit-mcp" ∧ now2 < pl2.exp
        · by_cases hsk : sk = true
          · simp [hc2, hsk]
          · simp [hc2, hsk, hne]
        · simp [hc2]
    · rw [if_neg hcond] at h1'
      exact absurd h1' (by simp)

/-- Witness for C8 at concrete tokens: revoking the "j1" token makes its
verification fail while the "j2" token's decode result is unchanged. -/
theorem revoke_token_blacklists_and_frames_witness :
    (p8.revoke_token 0 tokJ1)._decode_jwt 0 tokJ1 false = none
    ∧ (p8.revoke_token 0 tokJ1)._decode_jwt 0 tokJ2 false =
        p8._decode_jwt 0 tokJ2 false :=
  ⟨(revoke_token_blacklists_and_frames p8 0 tokJ1 plJ1 rfl (by decide)).1 0,
   (revoke_token_blacklists_and_frames p8 0 tokJ1 plJ1 rfl (by decide)).2
      0 false plJ2 "s" (by decide)⟩

/-- One wrong-PIN attempt below the ceiling: the failure counter for the
consent id is bumped, the pending record is left intact, and the caller gets
the invalid-PIN error (auth.py 142-145). -/
theorem approve_consent_wrong_pin_step
    (p : BybitOAuthProvider) (now : Nat) (code cid pin : String)
    (cp : OAuthClientInformationFull × AuthorizationParams) (k : Nat)
    (hpin : p.consent_pin ≠ "")
    (hpend : dictGet p.pending_consents cid = some cp)
    (hk : (dictGet p.pin_failures cid).getD 0 = k)
    (hlt : k < _MAX_PIN_ATTEMPTS)
    (hw : pin ≠ p.consent_pin) :
    p.approve_consent now code cid pin =
      ({ p with pin_failures := dictInsert p.pin_failures cid (k + 1) },
       .error (.invalidPINError "Invalid PIN")) := by
  simp [BybitOAuthProvider.approve_consent, hpend, hpin, hk,
        Nat.not_le.mpr hlt, hw]

/-- The observable facts carried from one wrong-PIN attempt to the next:
the configured PIN is untouched, the consent stays pending, and the failure
count rises by one. -/
theorem approve_consent_wrong_pin_progress
    (q : BybitOAuthProvider) (now : Nat) (code cid wrong : String)
    (cp : OAuthClientInformationFull × AuthorizationParams) (k : Nat)
    (hpin : q.consent_pin ≠ "")
    (hpend : dictGet q.pending_consents cid = some cp)
    (hk : (dictGet q.pin_failures cid).getD 0 = k)
    (hlt : k < _MAX_PIN_ATTEMPTS)
    (hw : wrong ≠ q.consent_pin) :
    (q.approve_consent now code cid wrong).1.consent_pin = q.consent_pin
    ∧ dictGet (q.approve_consent now code cid wrong).1.pending_consents cid = some cp
    ∧ (dictGet (q.approve_consent now code cid wrong).1.pin_failures cid).getD 0
        = k + 1 := by
  rw [approve_consent_wrong_pin_step q now code cid wrong cp k hpin hpend hk hlt hw]
  exact ⟨rfl, hpend, by rw [dictGet_dictInsert_self]; rfl⟩

/-- C3: with a consent PIN configured and a fresh pending consent, five
consecutive wrong-PIN attempts exhaust the ceiling; the sixth attempt — with
any PIN, the correct one included — fails with the lockout error, and both
the pending consent and its failure counter are gone. -/
theorem approve_consent_lockout_after_five_wrong
    (p : BybitOAuthProvider) (now : Nat) (code cid wrong : String)
    (cp : OAuthClientInformationFull × AuthorizationParams)
    (hpin : p.consent_pin ≠ "")
    (hpend : dictGet p.pending_consents cid = some cp)
    (hfail : dictGet p.pin_failures cid = none)
    (hw : wrong ≠ p.consent_pin) :
    ∀ pin6 : String,
      ((p.approveAttempts now code cid (List.replicate 5 wrong)).approve_consent
          now code cid pin6).2 =
        .error (.invalidPINError "Too many failed attempts. Authorization cancelled.")
      ∧ dictGet ((p.approveAttempts now code cid (List.replicate 5 wrong)).approve_consent
          now code cid pin6).1.pending_consents cid = none
      ∧ dictGet ((p.approveAttempts now code cid (List.replicate 5 wrong)).approve_consent
          now code cid pin6).1.pin_failures cid = none := by
  intro pin6
  rw [show p.approveAttempts now code cid (List.replicate 5 wrong) =
      (((((p.approve_consent now code cid wrong).1.approve_consent now code cid
        wrong).1.approve_consent now code cid wrong).1.approve_consent now code
        cid wrong).1.approve_consent now code cid wrong).1 from rfl]
  obtain ⟨hpinA, hpendA, hkA⟩ :=
    approve_consent_wrong_pin_progress p now code cid wrong cp 0 hpin hpend
      (by rw [hfail]; rfl) (by decide) hw
  set q1 := (p.approve_consent now code cid wrong).1
  obtain ⟨hpinB, hpendB, hkB⟩ :=
    approve_consent_wrong_pin_progress q1 now code cid wrong cp (0 + 1)
      (by rw [hpinA]; exact hpin) hpendA hkA (by decide)
      (by rw [hpinA]; exact hw)
  set q2 := (q1.approve_consent now code cid wrong).1
  obtain ⟨hpinC, hpendC, hkC⟩ :=
    approve_consent_wrong_pin_progress q2 now code cid wrong cp (0 + 1 + 1)
      (by rw [hpinB, hpinA]; exact hpin) hpendB hkB (by decide)
      (by rw [hpinB, hpinA]; exact hw)
  set q3 := (q2.approve_consent now code cid wrong).1
  obtain ⟨hpinD, hpendD, hkD⟩ :=
    approve_consent_wrong_pin_progress q3 now code cid wrong cp (0 + 1 + 1 + 1)
      (by rw [hpinC, hpinB, hpinA]; exact hpin) hpendC hkC (by decide)
      (by rw [hpinC, hpinB, hpinA]; exact hw)
  set q4 := (q3.approve_consent now code cid wrong).1
  obtain ⟨hpinE, hpendE, hkE⟩ :=
    approve_consent_wrong_pin_progress q4 now code cid wrong cp (0 + 1 + 1 + 1 + 1)
      (by rw [hpinD, hpinC, hpinB, hpinA]; exact hpin) hpendD hkD (by decide)
      (by rw [hpinD, hpinC, hpinB, hpinA]; exact hw)
  set q5 := (q4.approve_consent now code cid wrong).1
  have hpin5 : q5.consent_pin ≠ "" := by
    rw [hpinE, hpinD, hpinC, hpinB, hpinA]; exact hpin
  have hge : _MAX_PIN_ATTEMPTS ≤ (dictGet q5.pin_failures cid).getD 0 := by
    rw [hkE]; decide
  have hfin : q5.approve_consent now code cid pin6 =
      ({ q5 with pending_consents := dictPop q5.pending_consents cid,
                 pin_failures := dictPop q5.pin_failures cid },
       .error (.invalidPINError
         "Too many failed attempts. Authorization cancelled.")) := by
    simp [BybitOAuthProvider.approve_consent, hpendE, hpin5, hge]
  rw [hfin]
  exact ⟨rfl, dictGet_dictPop_self _ _, dictGet_dictPop_self _ _⟩

/-- Witness for C3: after five attempts with the wrong PIN "0", the sixth
attempt with the correct PIN "9999" is locked out and the consent and its
counter are gone. -/
theorem approve_consent_lockout_after_five_wrong_witness :
    pC.consent_pin = "9999"
    ∧ ((pC.approveAttempts 0 "code1" "c1" (List.replicate 5 "0")).approve_consent
        0 "code1" "c1" "9999").2 =
      .error (.invalidPINError "Too many failed attempts. Authorization cancelled.")
    ∧ dictGet ((pC.approveAttempts 0 "code1" "c1" (List.replicate 5 "0")).approve_consent
        0 "code1" "c1" "9999").1.pending_consents "c1" = none
    ∧ dictGet ((pC.approveAttempts 0 "code1" "c1" (List.replicate 5 "0")).approve_consent
        0 "code1" "c1" "9999").1.pin_failures "c1" = none :=
  ⟨rfl,
   approve_consent_lockout_after_five_wrong pC 0 "code1" "c1" "0"
     (clientY, paramsY) (by decide) rfl rfl (by decide) "9999"⟩
